import Mathlib

/-!
Verification of the contact-manager program (address_book.py) against its
natural-language specification.

The program is shallowly embedded here:

* Python `datetime.date` values are modelled by the `PyDate` structure
  (proleptic Gregorian calendar, as CPython implements it: `toordinal`,
  `weekday`, validity of a (year, month, day) triple, chronological order).
* Mutating methods on `Record` are modelled as functions returning the new
  record together with an optional raised exception (`Option PyErr`); the
  source only mutates after all raise points, so an error result carries the
  unchanged record.
* `AddressBook` (a `UserDict`) is modelled as an insertion-ordered
  association list with unique keys, matching CPython dict semantics:
  assigning to an existing key keeps its position, a new key is appended.
* Fallible constructors (`Name`, `Phone`, `Birthday`) return `Except`.
-/

/-- Gregorian leap-year test, as implemented by CPython `datetime`. -/
def isLeap (y : Nat) : Prop := y % 4 = 0 ∧ (y % 100 ≠ 0 ∨ y % 400 = 0)

instance (y : Nat) : Decidable (isLeap y) := by
  unfold isLeap
  exact inferInstance

/-- Number of days of month `m` (1..12) in year `y`, as in CPython `datetime`. -/
def daysInMonth (y m : Nat) : Nat :=
  if m = 2 then (if isLeap y then 29 else 28)
  else if m = 4 ∨ m = 6 ∨ m = 9 ∨ m = 11 then 30
  else 31

/-- A calendar date as carried by Python `datetime.date`: a (year, month, day)
triple. Validity is a separate predicate, mirroring the checks done by the
`date` constructor and `date.replace`. -/
structure PyDate where
  year : Nat
  month : Nat
  day : Nat
deriving DecidableEq, Repr

/-- The validity check CPython `datetime.date` performs on construction and on
`replace` (year within range, month 1..12, day within the month). The upper
year bound 9999 is not modelled; no claim depends on it. -/
def PyDate.valid (d : PyDate) : Prop :=
  1 ≤ d.year ∧ 1 ≤ d.month ∧ d.month ≤ 12 ∧ 1 ≤ d.day ∧ d.day ≤ daysInMonth d.year d.month

instance (d : PyDate) : Decidable d.valid := by
  unfold PyDate.valid
  exact inferInstance

/-- Python date comparison (`<`); dates compare chronologically, i.e.
lexicographically on (year, month, day). -/
def PyDate.lt (a b : PyDate) : Prop :=
  a.year < b.year ∨ (a.year = b.year ∧ (a.month < b.month ∨ (a.month = b.month ∧ a.day < b.day)))

instance (a b : PyDate) : Decidable (a.lt b) := by
  unfold PyDate.lt
  exact inferInstance

/-- Python date comparison (`<=`). -/
def PyDate.le (a b : PyDate) : Prop := a.lt b ∨ a = b

instance (a b : PyDate) : Decidable (a.le b) := by
  unfold PyDate.le
  exact inferInstance

/-- Days in year `y` strictly before month `m` (so 0 for January). -/
def daysBeforeMonth (y : Nat) : Nat → Nat
  | 0 => 0
  | m + 1 => if m = 0 then 0 else daysBeforeMonth y m + daysInMonth y m

/-- CPython `date.toordinal`: day number counting 0001-01-01 as 1. -/
def PyDate.toOrdinal (d : PyDate) : Nat :=
  365 * (d.year - 1) + (d.year - 1) / 4 - (d.year - 1) / 100 + (d.year - 1) / 400
    + daysBeforeMonth d.year d.month + d.day

/-- CPython `date.weekday`: Monday is 0, Sunday is 6. -/
def PyDate.weekday (d : PyDate) : Nat := (d.toOrdinal + 6) % 7

/-- The calendar successor of a date (used to model `timedelta` addition). -/
def PyDate.nextDay (d : PyDate) : PyDate :=
  if d.day < daysInMonth d.year d.month then ⟨d.year, d.month, d.day + 1⟩
  else if d.month < 12 then ⟨d.year, d.month + 1, 1⟩
  else ⟨d.year + 1, 1, 1⟩

/-- Python `d + timedelta(days = n)`, modelled as iterated calendar successor
(which agrees with CPython ordinal arithmetic on valid dates). -/
def PyDate.addDays (d : PyDate) : Nat → PyDate
  | 0 => d
  | n + 1 => d.nextDay.addDays n

/-- A single-quote character as a string (used in several printed messages). -/
def apos : String := String.singleton (Char.ofNat 39)

/-- Zero-pad a number to two digits, as `strftime` does for `%d` and `%m`. -/
def pad2 (n : Nat) : String := if n < 10 then "0" ++ toString n else toString n

/-- Python `date.strftime("%d.%m.%Y")`. -/
def pyFormat (d : PyDate) : String :=
  pad2 d.day ++ "." ++ pad2 d.month ++ "." ++ toString d.year

/-- The two kinds of exception the record methods raise: `ValueError`
(translated to "Error: ..." by the `input_error` decorator) and a bare
`Exception` (translated to "Unexpected error: ..."). -/
inductive PyErr where
  | valueError (msg : String)
  | exception (msg : String)
deriving DecidableEq, Repr

/-- Source `Name.__init__`: raises ValueError on an empty value. The input is
already a string here (the not-a-string branch is unreachable from the CLI),
and the validated value is returned. -/
def Name.make (value : String) : Except String String :=
  if value = "" then .error "Name must be a non-empty string" else .ok value

/-- A phone entry; the source `Phone` field wraps a single string value. -/
structure Phone where
  value : String
deriving DecidableEq, Repr

/-- Source `Phone.__init__`: coerces to a string (identity here) and raises
ValueError unless the length is exactly 10. No digit check is performed. -/
def Phone.make (value : String) : Except String Phone :=
  if value.length = 10 then .ok ⟨value⟩ else .error "Phone number should be 10 digits"

/-- Split a character list at every separator the predicate accepts, keeping
empty pieces (the list-of-characters analogue of Python `str.split(sep)`). -/
def splitBy (p : Char → Bool) : List Char → List (List Char)
  | [] => [[]]
  | c :: cs =>
    if p c then [] :: splitBy p cs
    else match splitBy p cs with
      | [] => [[c]]
      | t :: ts => (c :: t) :: ts

/-- Python `str.strip()` on a character list. -/
def stripChars (cs : List Char) : List Char :=
  ((cs.dropWhile Char.isWhitespace).reverse.dropWhile Char.isWhitespace).reverse

/-- Decimal value of a digit string (accumulator form). -/
def digitsToNat : List Char → Nat → Nat
  | [], acc => acc
  | c :: cs, acc => digitsToNat cs (acc * 10 + (c.toNat - 48))

/-- Parse a non-empty all-digit character list as a number. -/
def charsToNat? (cs : List Char) : Option Nat :=
  if cs ≠ [] ∧ cs.all Char.isDigit then some (digitsToNat cs 0) else none

/-- Source `Birthday.__init__`: `datetime.strptime(value, "%d.%m.%Y")`,
re-raised as ValueError "Invalid date format. Use DD.MM.YYYY" on failure.
CPython strptime matches day and month as one or two digits within range and
the year as exactly four digits, then validates the day against the month. -/
def Birthday.parse (value : String) : Except String PyDate :=
  match splitBy (fun c => c == Char.ofNat 46) value.data with
  | [ds, ms, ys] =>
    match charsToNat? ds, charsToNat? ms, charsToNat? ys with
    | some d, some m, some y =>
      if 1 ≤ ds.length ∧ ds.length ≤ 2 ∧ 1 ≤ d ∧ d ≤ 31
          ∧ 1 ≤ ms.length ∧ ms.length ≤ 2 ∧ 1 ≤ m ∧ m ≤ 12
          ∧ ys.length = 4 ∧ (PyDate.mk y m d).valid
      then .ok ⟨y, m, d⟩
      else .error "Invalid date format. Use DD.MM.YYYY"
    | _, _, _ => .error "Invalid date format. Use DD.MM.YYYY"
  | _ => .error "Invalid date format. Use DD.MM.YYYY"

/-- Source `Record`: a name, an ordered list of phones, an optional birthday
(the `Birthday` field wraps a `datetime.date`, modelled by `PyDate`). -/
structure Record where
  name : String
  phones : List Phone
  birthday : Option PyDate
deriving DecidableEq, Repr

/-- Source `Record.find_phone`: first phone whose value equals the given
string, or None. -/
def Record.find_phone (r : Record) (number : String) : Option Phone :=
  r.phones.find? (fun p => p.value == number)

/-- Source `Record.add_phone`: validates and appends. -/
def Record.add_phone (r : Record) (number : String) : Record × Option PyErr :=
  match Phone.make number with
  | .ok p => ({ r with phones := r.phones ++ [p] }, none)
  | .error e => (r, some (.valueError e))

/-- Source `Record.delete_phone`: raises ValueError when `find_phone` misses,
otherwise keeps only the phones whose value differs from the argument. The
raise happens before any mutation, so an error result carries the unchanged
record. -/
def Record.delete_phone (r : Record) (number : String) : Record × Option PyErr :=
  match r.find_phone number with
  | none => (r, some (.valueError "Phone number was not found"))
  | some _ => ({ r with phones := r.phones.filter (fun p => p.value != number) }, none)

/-- The loop inside source `Record.update_phone`: scan for the first phone
equal to `old_number`; on a hit, construct `Phone(new_number)` (which may
raise ValueError) and replace in place; if the scan finishes, raise
ValueError "Old number was not found". -/
def updatePhonesGo (old_number new_number : String) : List Phone → Except PyErr (List Phone)
  | [] => .error (.valueError "Old number was not found")
  | p :: ps =>
    if p.value = old_number then
      match Phone.make new_number with
      | .ok np => .ok (np :: ps)
      | .error e => .error (.valueError e)
    else
      match updatePhonesGo old_number new_number ps with
      | .ok rest => .ok (p :: rest)
      | .error e => .error e

/-- Source `Record.update_phone`; the raise happens before any mutation, so an
error result carries the unchanged record. -/
def Record.update_phone (r : Record) (old_number new_number : String) : Record × Option PyErr :=
  match updatePhonesGo old_number new_number r.phones with
  | .ok ps => ({ r with phones := ps }, none)
  | .error e => (r, some e)

/-- Source `Record.add_birthday`: raises a bare Exception when a birthday is
already present, otherwise parses (ValueError on bad format) and stores. -/
def Record.add_birthday (r : Record) (day : String) : Record × Option PyErr :=
  match r.birthday with
  | some _ => (r, some (.exception "Birthday has already been added"))
  | none =>
    match Birthday.parse day with
    | .ok d => ({ r with birthday := some d }, none)
    | .error e => (r, some (.valueError e))

/-- Source `Record.__str__`. -/
def Record.render (r : Record) : String :=
  r.name ++ ", phones: " ++ String.intercalate "; " (r.phones.map Phone.value)

/-- Source `AddressBook` (a `UserDict`): modelled as an insertion-ordered
association list with unique keys, matching CPython dict semantics. -/
structure AddressBook where
  data : List (String × Record)
deriving DecidableEq, Repr

/-- CPython dict assignment `data[k] = r`: replace in place when the key
exists, append otherwise. -/
def upsert : List (String × Record) → String → Record → List (String × Record)
  | [], k, r => [(k, r)]
  | kv :: rest, k, r => if kv.1 = k then (k, r) :: rest else kv :: upsert rest k r

/-- Source `AddressBook.add_record`: `self.data[rec.name.value] = rec`. -/
def AddressBook.add_record (b : AddressBook) (rec : Record) : AddressBook :=
  ⟨upsert b.data rec.name rec⟩

/-- Source `AddressBook.find_record`: `self.data.get(name)`. -/
def AddressBook.find_record (b : AddressBook) (name : String) : Option Record :=
  (b.data.find? (fun kv => kv.1 == name)).map Prod.snd

/-- Source `AddressBook.delete_record`: delete the key if present. -/
def AddressBook.delete_record (b : AddressBook) (name : String) : AddressBook :=
  ⟨b.data.filter (fun kv => kv.1 != name)⟩

/-- Python `birth_date.replace(year = y)`: same month and day with the year
replaced; raises ValueError when the resulting triple is not a valid date
(for these inputs only "day is out of range for month" is reachable, on
February 29 mapped into a non-leap year). -/
def replaceYear (d : PyDate) (y : Nat) : Except String PyDate :=
  if (PyDate.mk y d.month d.day).valid then .ok ⟨y, d.month, d.day⟩
  else .error "day is out of range for month"

/-- The loop body of source `AddressBook.get_upcoming_birthdays`, over the
records in dict order. An exception anywhere aborts the whole call. -/
def upcomingGo (today week_ahead : PyDate) :
    List (String × Record) → Except String (List (String × String))
  | [] => .ok []
  | (_, record) :: rest =>
    match record.birthday with
    | none => upcomingGo today week_ahead rest
    | some birth_date =>
      match replaceYear birth_date today.year with
      | .error e => .error e
      | .ok b1 =>
        match (if b1.lt today then replaceYear b1 (today.year + 1) else .ok b1) with
        | .error e => .error e
        | .ok b2 =>
          match upcomingGo today week_ahead rest with
          | .error e => .error e
          | .ok tail =>
            if today.le b2 ∧ b2.le week_ahead then
              .ok ((record.name,
                pyFormat (if 5 ≤ b2.weekday then b2.addDays (7 - b2.weekday) else b2)) :: tail)
            else .ok tail

/-- Source `AddressBook.get_upcoming_birthdays`, with `datetime.date.today()`
passed in explicitly. -/
def AddressBook.get_upcoming_birthdays (b : AddressBook) (today : PyDate) :
    Except String (List (String × String)) :=
  upcomingGo today (today.addDays 7) b.data

/-- Per the spec: this year's occurrence of the birthday's month/day, rolled
forward to next year's occurrence when it is already before today. -/
def specOccurrence (today bd : PyDate) : PyDate :=
  let thisYear : PyDate := ⟨today.year, bd.month, bd.day⟩
  if thisYear.lt today then ⟨today.year + 1, bd.month, bd.day⟩ else thisYear

/-- Walk forward day by day (at most a week) until a Monday is reached. -/
def mondayGo : Nat → PyDate → PyDate
  | 0, x => x
  | fuel + 1, x => if x.weekday = 0 then x else mondayGo fuel x.nextDay

/-- Per the spec: the first Monday strictly after the given date. -/
def followingMonday (d : PyDate) : PyDate := mondayGo 7 d.nextDay

/-- The hypothesis under which `get_upcoming_birthdays` cannot raise for a
given record: the stored birthday's month/day exists in today's year, and in
the next year too when the this-year occurrence has already passed. Only a
February 29 birthday mapped into a non-leap year violates this. -/
def birthdayOk (today : PyDate) (r : Record) : Prop :=
  match r.birthday with
  | none => True
  | some bd =>
    (PyDate.mk today.year bd.month bd.day).valid ∧
      ((PyDate.mk today.year bd.month bd.day).lt today →
        (PyDate.mk (today.year + 1) bd.month bd.day).valid)

instance (today : PyDate) (r : Record) : Decidable (birthdayOk today r) := by
  unfold birthdayOk
  cases r.birthday <;> exact inferInstance

/-- One record of the upcoming-birthday query as the specification words it:
keep the record exactly when its (rolled-forward) occurrence falls in the
inclusive window from today through today plus seven days; report a weekend
occurrence as the following Monday, formatted DD.MM.YYYY. -/
def upcomingSpecItem (today : PyDate) (nr : String × Record) : Option (String × String) :=
  match nr.2.birthday with
  | none => none
  | some bd =>
    let occ := specOccurrence today bd
    if today.le occ ∧ occ.le (today.addDays 7) then
      some (nr.2.name,
        pyFormat (if occ.weekday = 5 ∨ occ.weekday = 6 then followingMonday occ else occ))
    else none

/-- The upcoming-birthday query as the specification words it, over the whole
book in dict order. -/
def upcomingSpec (b : AddressBook) (today : PyDate) : List (String × String) :=
  b.data.filterMap (upcomingSpecItem today)

/-- Source `parse_input`: strip, casefold (modelled as ASCII lowercasing),
split on whitespace. Unpacking `cmd, *args` raises ValueError on an empty
token list, modelled as `none`. -/
def parse_input (user_input : String) : Option (String × List String) :=
  match ((splitBy Char.isWhitespace
      ((stripChars user_input.data).map Char.toLower)).filter (fun t => t ≠ [])).map
      (fun t => String.mk t) with
  | [] => none
  | cmd :: args => some (cmd, args)

/-- Source `add_contact` handler (wrapped by `input_error`): the starred
unpacking `name, phone, *_ = args` raises ValueError on fewer than two
tokens, printed as "Error: not enough values to unpack ..."; a new name is
inserted first and the phone attached afterwards, so an invalid phone still
leaves the fresh empty record behind. -/
def add_contact (args : List String) (book : AddressBook) : AddressBook × String :=
  match args with
  | name :: phone :: _ =>
    (match book.find_record name with
    | some record =>
      if phone ≠ "" then
        match Phone.make phone with
        | .ok p => (⟨upsert book.data name { record with phones := record.phones ++ [p] }⟩,
            "Contact updated.")
        | .error e => (book, "Error: " ++ e)
      else (book, "Contact updated.")
    | none =>
      match Name.make name with
      | .error e => (book, "Error: " ++ e)
      | .ok nm =>
        let record : Record := ⟨nm, [], none⟩
        let book1 := book.add_record record
        if phone ≠ "" then
          match Phone.make phone with
          | .ok p => (book1.add_record { record with phones := [p] }, "Contact added.")
          | .error e => (book1, "Error: " ++ e)
        else (book1, "Contact added."))
  | _ => (book, "Error: not enough values to unpack (expected at least 2, got "
      ++ toString args.length ++ ")")

/-- Source `change_contact` handler: explicit IndexError below three tokens,
exact three-way unpacking (extra tokens raise ValueError), KeyError on a
missing contact, then `update_phone` with in-place write-back. -/
def change_contact (args : List String) (book : AddressBook) : AddressBook × String :=
  match args with
  | [name, old_phone, new_phone] =>
    (match book.find_record name with
    | none => (book, "Error: Contact not found.")
    | some record =>
      match Record.update_phone record old_phone new_phone with
      | (r2, none) => (⟨upsert book.data name r2⟩,
          "Phone for " ++ name ++ " updated: " ++ old_phone ++ " > " ++ new_phone)
      | (_, some (.valueError e)) => (book, "Error: " ++ e)
      | (_, some (.exception e)) => (book, "Unexpected error: " ++ e))
  | _ =>
    if args.length < 3 then (book, "Error: Incorrect number of arguments.")
    else (book, "Error: too many values to unpack (expected 3)")

/-- Source `show_phone` handler: exactly one token required, KeyError on a
missing contact, a dedicated message when the record has no phones. -/
def show_phone (args : List String) (book : AddressBook) : String :=
  match args with
  | [name] =>
    (match book.find_record name with
    | none => "Error: Contact not found."
    | some record =>
      if record.phones = [] then name ++ " has no phone numbers."
      else name ++ apos ++ "s phone number(s): "
        ++ String.intercalate ", " (record.phones.map Phone.value))
  | _ => "Error: Incorrect number of arguments."

/-- Source `show_all` handler. -/
def show_all (book : AddressBook) : String :=
  if book.data = [] then "No contacts found."
  else String.join (book.data.map fun nr => "\n" ++ nr.2.render)

/-- Source `add_birthday` handler: exact two-way unpacking (ValueError
otherwise); the `isinstance(record, str)` guard is dead code because
`find_record` returns a record or None, so a lookup miss reaches
`record.add_birthday` on None and raises AttributeError, which the
`input_error` decorator reports as an unexpected error. -/
def add_birthday (args : List String) (book : AddressBook) : AddressBook × String :=
  match args with
  | [name, birthday] =>
    (match book.find_record name with
    | none => (book, "Unexpected error: " ++ apos ++ "NoneType" ++ apos
        ++ " object has no attribute " ++ apos ++ "add_birthday" ++ apos)
    | some record =>
      match Record.add_birthday record birthday with
      | (r2, none) => (⟨upsert book.data name r2⟩, "Birthday added for " ++ name ++ ".")
      | (_, some (.valueError e)) => (book, "Error: " ++ e)
      | (_, some (.exception e)) => (book, "Unexpected error: " ++ e))
  | _ =>
    if args.length < 2 then
      (book, "Error: not enough values to unpack (expected 2, got "
        ++ toString args.length ++ ")")
    else (book, "Error: too many values to unpack (expected 2)")

/-- Source `show_birthday` handler: `args[0]` raises IndexError on an empty
list; a lookup miss reaches `record.birthday` on None and raises
AttributeError (the `isinstance(record, str)` guard is dead code). -/
def show_birthday (args : List String) (book : AddressBook) : String :=
  match args with
  | [] => "Error: Incorrect number of arguments."
  | name :: _ =>
    match book.find_record name with
    | none => "Unexpected error: " ++ apos ++ "NoneType" ++ apos
        ++ " object has no attribute " ++ apos ++ "birthday" ++ apos
    | some record =>
      match record.birthday with
      | none => "No birthday recorded for " ++ name ++ "."
      | some d => name ++ apos ++ "s birthday: " ++ pyFormat d

/-- Source `birthdays` handler: a ValueError from the query (February 29) is
caught by `input_error` and reported as an error line. -/
def birthdays (today : PyDate) (book : AddressBook) : String :=
  match book.get_upcoming_birthdays today with
  | .error e => "Error: " ++ e
  | .ok [] => "No birthdays in the upcoming week."
  | .ok l => String.intercalate "\n" (l.map fun item => item.1 ++ " - " ++ item.2)

/-- Outcome of one iteration of the source `main` loop: a printed line and the
resulting book, with `bye` marking the close/exit branch that saves and
breaks instead of re-prompting. -/
inductive StepResult where
  | msg (printed : String) (book : AddressBook)
  | bye (printed : String) (book : AddressBook)
deriving DecidableEq, Repr

/-- One iteration of the source `main` loop on one input line (today's date
passed in for the `birthdays` branch). `parse_input` unpacking has no handler
in `main`, so its ValueError on an empty token list crashes the process,
modelled as `Except.error` with CPython's unpacking message. -/
def mainStep (today : PyDate) (book : AddressBook) (line : String) : Except String StepResult :=
  match parse_input line with
  | none => .error "not enough values to unpack (expected at least 1, got 0)"
  | some (command, args) =>
    match command with
    | "close" => .ok (.bye "Good bye!" book)
    | "exit" => .ok (.bye "Good bye!" book)
    | "hello" => .ok (.msg "How can I help you?" book)
    | "add" => .ok (.msg (add_contact args book).2 (add_contact args book).1)
    | "change" => .ok (.msg (change_contact args book).2 (change_contact args book).1)
    | "phone" => .ok (.msg (show_phone args book) book)
    | "all" => .ok (.msg (show_all book) book)
    | "add-birthday" => .ok (.msg (add_birthday args book).2 (add_birthday args book).1)
    | "show-birthday" => .ok (.msg (show_birthday args book) book)
    | "birthdays" => .ok (.msg (birthdays today book) book)
    | _ => .ok (.msg "Invalid command." book)

/-- One token of the serialized stream. The source delegates to `pickle`; its
blob is modelled as a stream of primitive tokens, which keeps the
serialization mechanism native and opaque while letting the round-trip be
proved rather than assumed. -/
inductive PTok where
  | nat (n : Nat)
  | str (s : String)
deriving DecidableEq, Repr

/-- Serialize an optional birthday as a tag plus its fields. -/
def dumpBirthday : Option PyDate → List PTok
  | none => [.nat 0]
  | some d => [.nat 1, .nat d.year, .nat d.month, .nat d.day]

/-- Serialize one dict entry: key, record name, phone count, phone values,
then the optional birthday. -/
def dumpRecord (kv : String × Record) : List PTok :=
  [.str kv.1, .str kv.2.name, .nat kv.2.phones.length]
    ++ kv.2.phones.map (fun p => .str p.value)
    ++ dumpBirthday kv.2.birthday

/-- Model of `pickle.dump` of the whole book: entry count, then each entry. -/
def pickleDumps (b : AddressBook) : List PTok :=
  .nat b.data.length :: (b.data.map dumpRecord).flatten

/-- Read back `n` phone values. -/
def loadPhones : Nat → List PTok → Option (List Phone × List PTok)
  | 0, ts => some ([], ts)
  | n + 1, .str s :: ts => (loadPhones n ts).map (fun pr => (⟨s⟩ :: pr.1, pr.2))
  | _ + 1, _ => none

/-- Read back an optional birthday. -/
def loadBirthday : List PTok → Option (Option PyDate × List PTok)
  | .nat 0 :: ts => some (none, ts)
  | .nat 1 :: .nat y :: .nat m :: .nat d :: ts => some (some ⟨y, m, d⟩, ts)
  | _ => none

/-- Read back one dict entry. -/
def loadRecord : List PTok → Option ((String × Record) × List PTok)
  | .str k :: .str nm :: .nat np :: ts =>
    match loadPhones np ts with
    | none => none
    | some (ps, ts1) =>
      match loadBirthday ts1 with
      | none => none
      | some (bd, ts2) => some ((k, ⟨nm, ps, bd⟩), ts2)
  | _ => none

/-- Read back `n` dict entries. -/
def loadRecords : Nat → List PTok → Option (List (String × Record) × List PTok)
  | 0, ts => some ([], ts)
  | n + 1, ts =>
    match loadRecord ts with
    | none => none
    | some (kv, ts1) =>
      match loadRecords n ts1 with
      | none => none
      | some (rest, ts2) => some (kv :: rest, ts2)

/-- Model of `pickle.load`: rejects a malformed or incomplete stream. -/
def pickleLoads (ts : List PTok) : Option AddressBook :=
  match ts with
  | .nat n :: rest =>
    match loadRecords n rest with
    | some (l, []) => some ⟨l⟩
    | _ => none
  | _ => none

/-- Source `save_data`: overwrite the file at the path with the serialized
book. The file system is modelled as the optional content of that path. -/
def save_data (book : AddressBook) (_fileContent : Option (List PTok)) : Option (List PTok) :=
  some (pickleDumps book)

/-- Source `load_data`: FileNotFoundError (a missing file) yields a fresh
empty book; any other failure propagates, modelled as `Except.error`. -/
def load_data (fileContent : Option (List PTok)) : Except String AddressBook :=
  match fileContent with
  | none => .ok ⟨[]⟩
  | some blob =>
    match pickleLoads blob with
    | some b => .ok b
    | none => .error "unpickling error"

deriving instance DecidableEq for Except

theorem daysInMonth_pos (y m : Nat) : 1 ≤ daysInMonth y m := by
  unfold daysInMonth
  split
  · split <;> omega
  · split <;> omega

theorem nextDay_valid {d : PyDate} (h : d.valid) : d.nextDay.valid := by
  obtain ⟨h1, h2, h3, h4, h5⟩ := h
  have p1 := daysInMonth_pos d.year (d.month + 1)
  have p2 := daysInMonth_pos (d.year + 1) 1
  unfold PyDate.nextDay PyDate.valid
  split
  · dsimp only
    omega
  · split <;> dsimp only <;> omega

theorem daysBeforeMonth_succ (y m : Nat) (h : 1 ≤ m) :
    daysBeforeMonth y (m + 1) = daysBeforeMonth y m + daysInMonth y m := by
  have hm : m ≠ 0 := by omega
  rw [show daysBeforeMonth y (m + 1)
      = if m = 0 then 0 else daysBeforeMonth y m + daysInMonth y m from rfl, if_neg hm]

theorem daysBeforeMonth_twelve (y : Nat) :
    daysBeforeMonth y 12 = 334 + (if isLeap y then 1 else 0) := by
  by_cases hL : isLeap y <;> simp [daysBeforeMonth, daysInMonth, hL]

theorem toOrdinal_nextDay {d : PyDate} (h : d.valid) :
    d.nextDay.toOrdinal = d.toOrdinal + 1 := by
  obtain ⟨h1, h2, h3, h4, h5⟩ := h
  unfold PyDate.nextDay
  split
  · simp only [PyDate.toOrdinal]
    omega
  · split
    · rename_i hd hm
      have hde : d.day = daysInMonth d.year d.month := by omega
      simp only [PyDate.toOrdinal]
      rw [daysBeforeMonth_succ _ _ h2]
      omega
    · rename_i hd hm
      have hm12 : d.month = 12 := by omega
      rw [hm12] at h5 hd
      have hd31 : d.day = 31 := by
        have e : daysInMonth d.year 12 = 31 := rfl
        omega
      simp only [PyDate.toOrdinal, hm12, hd31]
      have hb1 : daysBeforeMonth (d.year + 1) 1 = 0 := rfl
      have hb12 := daysBeforeMonth_twelve d.year
      rw [hb1, hb12]
      clear hd h5
      have hy : d.year - 1 + 1 = d.year := by omega
      have e4 := Nat.succ_div (d.year - 1) 4
      have e100 := Nat.succ_div (d.year - 1) 100
      have e400 := Nat.succ_div (d.year - 1) 400
      rw [hy] at e4 e100 e400
      have hy2 : d.year + 1 - 1 = d.year := by omega
      rw [hy2, e4, e100, e400]
      by_cases hL : isLeap d.year
      · rw [if_pos hL]
        have hc : d.year % 4 = 0 ∧ (d.year % 100 ≠ 0 ∨ d.year % 400 = 0) := hL
        clear hb12 hL
        by_cases h4 : 4 ∣ d.year <;> by_cases h100 : 100 ∣ d.year <;>
          by_cases h400 : 400 ∣ d.year <;>
          simp only [h4, h100, h400, if_true, if_false, if_pos, if_neg, not_false_iff] <;>
          omega
      · rw [if_neg hL]
        have hc : ¬(d.year % 4 = 0 ∧ (d.year % 100 ≠ 0 ∨ d.year % 400 = 0)) := hL
        clear hb12 hL
        by_cases h4 : 4 ∣ d.year <;> by_cases h100 : 100 ∣ d.year <;>
          by_cases h400 : 400 ∣ d.year <;>
          simp only [h4, h100, h400, if_true, if_false, if_pos, if_neg, not_false_iff] <;>
          omega

theorem weekday_nextDay {d : PyDate} (h : d.valid) :
    d.nextDay.weekday = (d.weekday + 1) % 7 := by
  unfold PyDate.weekday
  rw [toOrdinal_nextDay h]
  omega

theorem weekday_lt_seven (d : PyDate) : d.weekday < 7 := by
  unfold PyDate.weekday
  omega

theorem find?_eq_none_of_all_ne {l : List Phone} {number : String}
    (h : ∀ p ∈ l, p.value ≠ number) :
    l.find? (fun p => p.value == number) = none := by
  rw [List.find?_eq_none]
  intro x hx
  simpa using h x hx

theorem updatePhonesGo_notfound (old nw : String) (l : List Phone)
    (h : ∀ p ∈ l, p.value ≠ old) :
    updatePhonesGo old nw l = .error (.valueError "Old number was not found") := by
  induction l with
  | nil => rfl
  | cons p ps ih =>
    have hp : p.value ≠ old := h p (List.mem_cons_self p ps)
    have ihh := ih (fun q hq => h q (List.mem_cons_of_mem p hq))
    simp [updatePhonesGo, hp, ihh]

theorem updatePhonesGo_found (old nw : String) (pre : List Phone) (p : Phone)
    (post : List Phone) (hp : p.value = old) (hpre : ∀ q ∈ pre, q.value ≠ old)
    (hnw : nw.length = 10) :
    updatePhonesGo old nw (pre ++ p :: post) = .ok (pre ++ Phone.mk nw :: post) := by
  induction pre with
  | nil => simp [updatePhonesGo, hp, Phone.make, hnw]
  | cons q qs ih =>
    have hq : q.value ≠ old := hpre q (List.mem_cons_self q qs)
    have ihh := ih (fun x hx => hpre x (List.mem_cons_of_mem q hx))
    simp [updatePhonesGo, hq, ihh]

/-- C5: `delete_phone` on a number matching no phone fails with the
NotFoundError message and leaves the record unchanged; on a matching number
it removes every phone whose value equals it (duplicates included), after
which `find_phone` on that number returns the not-found sentinel. -/
theorem delete_phone_spec (r : Record) (number : String) :
    ((∀ p ∈ r.phones, p.value ≠ number) →
      Record.delete_phone r number = (r, some (.valueError "Phone number was not found"))) ∧
    ((∃ p ∈ r.phones, p.value = number) →
      Record.delete_phone r number
          = ({ r with phones := r.phones.filter (fun p => p.value != number) }, none) ∧
        Record.find_phone
          { r with phones := r.phones.filter (fun p => p.value != number) } number = none) := by
  constructor
  · intro h
    have hf : r.find_phone number = none := find?_eq_none_of_all_ne h
    unfold Record.delete_phone
    rw [hf]
  · intro h
    obtain ⟨p, hp, he⟩ := h
    have hf : ∃ q, r.find_phone number = some q := by
      unfold Record.find_phone
      rcases hq : r.phones.find? (fun q => q.value == number) with _ | q
      · rw [List.find?_eq_none] at hq
        exact absurd (by simpa using he) (hq p hp)
      · exact ⟨q, hq⟩
    obtain ⟨q, hq⟩ := hf
    constructor
    · unfold Record.delete_phone
      rw [hq]
    · unfold Record.find_phone
      rw [List.find?_eq_none]
      intro x hx
      rw [List.mem_filter] at hx
      simpa using hx.2

/-- C6: `update_phone` replaces the first phone equal to the old number in
place with a freshly validated phone; when no phone matches, it fails with
the NotFoundError message and the phone list is exactly as before. -/
theorem update_phone_spec (r : Record) (old nw : String) :
    ((∀ p ∈ r.phones, p.value ≠ old) →
      Record.update_phone r old nw = (r, some (.valueError "Old number was not found"))) ∧
    (∀ pre p post, r.phones = pre ++ p :: post → p.value = old →
      (∀ q ∈ pre, q.value ≠ old) → nw.length = 10 →
      Record.update_phone r old nw = ({ r with phones := pre ++ Phone.mk nw :: post }, none)) := by
  constructor
  · intro h
    unfold Record.update_phone
    rw [updatePhonesGo_notfound old nw r.phones h]
  · intro pre p post hsplit hp hpre hnw
    unfold Record.update_phone
    rw [hsplit, updatePhonesGo_found old nw pre p post hp hpre hnw]

/-- Witness for C6 on a concrete record: a missing old number fails with the
not-found error and leaves the record unchanged, and a present old number is
replaced in place, first occurrence only. -/
theorem update_phone_spec_witness :
    Record.update_phone ⟨"kim", [⟨"1111111111"⟩, ⟨"2222222222"⟩], none⟩ "3333333333" "4444444444"
        = (⟨"kim", [⟨"1111111111"⟩, ⟨"2222222222"⟩], none⟩,
           some (.valueError "Old number was not found")) ∧
    Record.update_phone ⟨"kim", [⟨"1111111111"⟩, ⟨"2222222222"⟩], none⟩ "2222222222" "5555555555"
        = (⟨"kim", [⟨"1111111111"⟩, ⟨"5555555555"⟩], none⟩, none) :=
  ⟨(update_phone_spec ⟨"kim", [⟨"1111111111"⟩, ⟨"2222222222"⟩], none⟩ "3333333333" "4444444444").1
      (by decide),
   ((update_phone_spec ⟨"kim", [⟨"1111111111"⟩, ⟨"2222222222"⟩], none⟩ "2222222222" "5555555555").2
      [⟨"1111111111"⟩] ⟨"2222222222"⟩ [] rfl rfl (by decide) (by decide)).trans (by decide)⟩

/-- Witness for C5 on a concrete record with a duplicated phone: deleting the
duplicated number removes both copies and `find_phone` then misses; deleting
an absent number fails with the not-found error and changes nothing. -/
theorem delete_phone_spec_witness :
    Record.delete_phone ⟨"kim", [⟨"1231231234"⟩, ⟨"9999999999"⟩, ⟨"1231231234"⟩], none⟩ "1231231234"
        = (⟨"kim", [⟨"9999999999"⟩], none⟩, none) ∧
    Record.find_phone ⟨"kim", [⟨"9999999999"⟩], none⟩ "1231231234" = none ∧
    Record.delete_phone ⟨"kim", [⟨"1231231234"⟩, ⟨"9999999999"⟩, ⟨"1231231234"⟩], none⟩ "0000000000"
        = (⟨"kim", [⟨"1231231234"⟩, ⟨"9999999999"⟩, ⟨"1231231234"⟩], none⟩,
           some (.valueError "Phone number was not found")) :=
  ⟨(((delete_phone_spec ⟨"kim", [⟨"1231231234"⟩, ⟨"9999999999"⟩, ⟨"1231231234"⟩], none⟩
        "1231231234").2 ⟨⟨"1231231234"⟩, by decide, rfl⟩).1).trans (by decide),
   by decide,
   (delete_phone_spec ⟨"kim", [⟨"1231231234"⟩, ⟨"9999999999"⟩, ⟨"1231231234"⟩], none⟩
        "0000000000").1 (by decide)⟩

/-- C7: constructing a phone succeeds exactly when the (string) value has
length ten, and fails with the validation message otherwise; digit content
plays no role. -/
theorem phone_validation_spec (v : String) :
    (Phone.make v = .ok ⟨v⟩ ↔ v.length = 10) ∧
    (v.length ≠ 10 → Phone.make v = .error "Phone number should be 10 digits") := by
  constructor
  · constructor
    · intro h
      by_contra hne
      unfold Phone.make at h
      rw [if_neg hne] at h
      simp at h
    · intro h
      unfold Phone.make
      rw [if_pos h]
  · intro h
    unfold Phone.make
    rw [if_neg h]

/-- Witness for C7: a ten-character non-digit string is accepted (the digit
content really is unchecked) and a short string is rejected. -/
theorem phone_validation_spec_witness :
    Phone.make "abcdefghij" = .ok ⟨"abcdefghij"⟩ ∧
    Phone.make "12345" = .error "Phone number should be 10 digits" :=
  ⟨(phone_validation_spec "abcdefghij").1.mpr (by decide),
   (phone_validation_spec "12345").2 (by decide)⟩

/-- C8: `add_birthday` on a record that already has a birthday fails with the
AlreadySetError message whatever the input, leaving the stored birthday
unchanged; on a record without one it parses DD.MM.YYYY and stores the date. -/
theorem add_birthday_record_spec (r : Record) (day : String) :
    (∀ b, r.birthday = some b →
      Record.add_birthday r day = (r, some (.exception "Birthday has already been added"))) ∧
    (r.birthday = none → ∀ d, Birthday.parse day = .ok d →
      Record.add_birthday r day = ({ r with birthday := some d }, none)) := by
  constructor
  · intro b hb
    unfold Record.add_birthday
    rw [hb]
  · intro hb d hd
    unfold Record.add_birthday
    rw [hb, hd]

/-- Witness for C8: re-setting a stored birthday fails and leaves it intact;
setting a fresh one parses and stores the date. -/
theorem add_birthday_record_spec_witness :
    Record.add_birthday ⟨"kim", [], some ⟨2000, 1, 1⟩⟩ "15.09.1990"
        = (⟨"kim", [], some ⟨2000, 1, 1⟩⟩, some (.exception "Birthday has already been added")) ∧
    Record.add_birthday ⟨"kim", [], none⟩ "15.09.1990"
        = (⟨"kim", [], some ⟨1990, 9, 15⟩⟩, none) :=
  ⟨(add_birthday_record_spec ⟨"kim", [], some ⟨2000, 1, 1⟩⟩ "15.09.1990").1 ⟨2000, 1, 1⟩ rfl,
   (add_birthday_record_spec ⟨"kim", [], none⟩ "15.09.1990").2 rfl ⟨1990, 9, 15⟩ (by decide)⟩

theorem loadPhones_dump (ps : List Phone) (rest : List PTok) :
    loadPhones ps.length (ps.map (fun p => PTok.str p.value) ++ rest) = some (ps, rest) := by
  induction ps with
  | nil => rfl
  | cons p ps ih => simp [loadPhones, ih]

theorem loadBirthday_dump (bd : Option PyDate) (rest : List PTok) :
    loadBirthday (dumpBirthday bd ++ rest) = some (bd, rest) := by
  cases bd <;> rfl

theorem loadRecord_dump (kv : String × Record) (rest : List PTok) :
    loadRecord (dumpRecord kv ++ rest) = some (kv, rest) := by
  obtain ⟨k, nm, ps, bd⟩ := kv
  show loadRecord (.str k :: .str nm :: .nat ps.length ::
      (ps.map (fun p => PTok.str p.value) ++ dumpBirthday bd ++ rest)) = _
  rw [List.append_assoc]
  simp only [loadRecord]
  rw [loadPhones_dump]
  dsimp only
  rw [loadBirthday_dump]

theorem loadRecords_dump (l : List (String × Record)) (rest : List PTok) :
    loadRecords l.length ((l.map dumpRecord).flatten ++ rest) = some (l, rest) := by
  induction l with
  | nil => rfl
  | cons kv tl ih =>
    show loadRecords (tl.length + 1) ((dumpRecord kv ++ (tl.map dumpRecord).flatten) ++ rest) = _
    rw [List.append_assoc]
    simp only [loadRecords]
    rw [loadRecord_dump]
    dsimp only
    rw [ih]

/-- C10: loading immediately after saving returns the very same book (hence
identical names, phone sequences and birthdays), and loading when the file is
absent yields a fresh empty book rather than an error. -/
theorem save_load_roundtrip (book : AddressBook) (fileContent : Option (List PTok)) :
    load_data (save_data book fileContent) = .ok book ∧ load_data none = .ok ⟨[]⟩ := by
  constructor
  · show load_data (some (pickleDumps book)) = .ok book
    unfold load_data pickleLoads pickleDumps
    dsimp only
    rw [show (book.data.map dumpRecord).flatten
        = (book.data.map dumpRecord).flatten ++ [] from (List.append_nil _).symm]
    rw [loadRecords_dump]
  · rfl

theorem upsert_of_fresh_key (l : List (String × Record)) (k : String) (r : Record)
    (h : ∀ kv ∈ l, kv.1 ≠ k) : upsert l k r = l ++ [(k, r)] := by
  induction l with
  | nil => rfl
  | cons kv rest ih =>
    have hk : kv.1 ≠ k := h kv (List.mem_cons_self kv rest)
    have ihh := ih (fun x hx => h x (List.mem_cons_of_mem kv hx))
    simp [upsert, hk, ihh]

theorem find?_append_fresh_key (l : List (String × Record)) (k : String) (r : Record)
    (h : ∀ kv ∈ l, kv.1 ≠ k) :
    (l ++ [(k, r)]).find? (fun kv => kv.1 == k) = some (k, r) := by
  induction l with
  | nil => simp
  | cons kv rest ih =>
    have hk : kv.1 ≠ k := h kv (List.mem_cons_self kv rest)
    have hkb : (kv.1 == k) = false := by simpa using hk
    have ihh := ih (fun x hx => h x (List.mem_cons_of_mem kv hx))
    simp [List.find?, hkb, ihh]

theorem upsert_append_same_key (l : List (String × Record)) (k : String) (r rnew : Record)
    (h : ∀ kv ∈ l, kv.1 ≠ k) :
    upsert (l ++ [(k, r)]) k rnew = l ++ [(k, rnew)] := by
  induction l with
  | nil => simp [upsert]
  | cons kv rest ih =>
    have hk : kv.1 ≠ k := h kv (List.mem_cons_self kv rest)
    have ihh := ih (fun x hx => h x (List.mem_cons_of_mem kv hx))
    simp [upsert, hk, ihh]

/-- C9: on a fresh name with a valid phone, the add handler appends exactly
one record holding exactly that phone and reports "Contact added."; a second
call with the same name and another valid phone takes the update path,
leaving a single record for the name that now holds both phones in order,
and reports "Contact updated." — no second record is ever created. -/
theorem add_contact_add_then_update (book : AddressBook) (name p1 p2 : String)
    (hn : book.find_record name = none) (hname : name ≠ "")
    (h1 : p1.length = 10) (h2 : p2.length = 10) :
    (add_contact [name, p1] book).2 = "Contact added." ∧
    (add_contact [name, p1] book).1.data
        = book.data ++ [(name, ⟨name, [⟨p1⟩], none⟩)] ∧
    (add_contact [name, p2] (add_contact [name, p1] book).1).2 = "Contact updated." ∧
    (add_contact [name, p2] (add_contact [name, p1] book).1).1.data
        = book.data ++ [(name, ⟨name, [⟨p1⟩, ⟨p2⟩], none⟩)] := by
  have hkeys : ∀ kv ∈ book.data, kv.1 ≠ name := by
    intro kv hkv
    unfold AddressBook.find_record at hn
    rw [Option.map_eq_none'] at hn
    rw [List.find?_eq_none] at hn
    simpa using hn kv hkv
  have hp1ne : p1 ≠ "" := by
    intro he
    rw [he] at h1
    simp at h1
  have hp2ne : p2 ≠ "" := by
    intro he
    rw [he] at h2
    simp at h2
  have hnm : Name.make name = .ok name := by
    unfold Name.make
    rw [if_neg hname]
  have hph1 : Phone.make p1 = .ok ⟨p1⟩ := by
    unfold Phone.make
    rw [if_pos h1]
  have hph2 : Phone.make p2 = .ok ⟨p2⟩ := by
    unfold Phone.make
    rw [if_pos h2]
  have e1 : add_contact [name, p1] book
      = (⟨book.data ++ [(name, ⟨name, [⟨p1⟩], none⟩)]⟩, "Contact added.") := by
    unfold add_contact
    dsimp only
    rw [hn, hnm]
    dsimp only
    rw [if_pos hp1ne, hph1]
    dsimp only
    unfold AddressBook.add_record
    dsimp only
    rw [upsert_of_fresh_key _ _ _ hkeys]
    rw [upsert_append_same_key _ _ _ _ hkeys]
  have hf2 : (⟨book.data ++ [(name, ⟨name, [⟨p1⟩], none⟩)]⟩ : AddressBook).find_record name
      = some ⟨name, [⟨p1⟩], none⟩ := by
    unfold AddressBook.find_record
    dsimp only
    rw [find?_append_fresh_key _ _ _ hkeys]
    rfl
  have e2 : add_contact [name, p2] (⟨book.data ++ [(name, ⟨name, [⟨p1⟩], none⟩)]⟩ : AddressBook)
      = (⟨book.data ++ [(name, ⟨name, [⟨p1⟩, ⟨p2⟩], none⟩)]⟩, "Contact updated.") := by
    unfold add_contact
    dsimp only
    rw [hf2]
    dsimp only
    rw [if_pos hp2ne, hph2]
    dsimp only
    rw [upsert_append_same_key _ _ _ _ hkeys]
    rfl
  rw [e1]
  dsimp only
  rw [e2]
  exact ⟨rfl, rfl, rfl, rfl⟩

/-- Witness for C9 on a concrete empty book and two valid phones. -/
theorem add_contact_add_then_update_witness :
    (add_contact ["alice", "1234567890"] ⟨[]⟩).2 = "Contact added." ∧
    (add_contact ["alice", "1234567890"] ⟨[]⟩).1.data
        = [("alice", ⟨"alice", [⟨"1234567890"⟩], none⟩)] ∧
    (add_contact ["alice", "0987654321"] (add_contact ["alice", "1234567890"] ⟨[]⟩).1).2
        = "Contact updated." ∧
    (add_contact ["alice", "0987654321"] (add_contact ["alice", "1234567890"] ⟨[]⟩).1).1.data
        = [("alice", ⟨"alice", [⟨"1234567890"⟩, ⟨"0987654321"⟩], none⟩)] :=
  add_contact_add_then_update ⟨[]⟩ "alice" "1234567890" "0987654321"
    (by decide) (by decide) (by decide) (by decide)

theorem followingMonday_sat {d : PyDate} (h : d.valid) (hw : d.weekday = 5) :
    followingMonday d = d.addDays 2 := by
  have h1 : d.nextDay.weekday = 6 := by rw [weekday_nextDay h, hw]
  have h2 : d.nextDay.nextDay.weekday = 0 := by
    rw [weekday_nextDay (nextDay_valid h), h1]
  unfold followingMonday
  rw [show mondayGo 7 d.nextDay
      = if d.nextDay.weekday = 0 then d.nextDay else mondayGo 6 d.nextDay.nextDay from rfl]
  rw [if_neg (by rw [h1]; decide)]
  rw [show mondayGo 6 d.nextDay.nextDay
      = if d.nextDay.nextDay.weekday = 0 then d.nextDay.nextDay
        else mondayGo 5 d.nextDay.nextDay.nextDay from rfl]
  rw [if_pos h2]
  rfl

theorem followingMonday_sun {d : PyDate} (h : d.valid) (hw : d.weekday = 6) :
    followingMonday d = d.addDays 1 := by
  have h1 : d.nextDay.weekday = 0 := by rw [weekday_nextDay h, hw]
  unfold followingMonday
  rw [show mondayGo 7 d.nextDay
      = if d.nextDay.weekday = 0 then d.nextDay else mondayGo 6 d.nextDay.nextDay from rfl]
  rw [if_pos h1]
  rfl

theorem weekend_shift_eq {d : PyDate} (h : d.valid) :
    (if 5 ≤ d.weekday then d.addDays (7 - d.weekday) else d)
      = (if d.weekday = 5 ∨ d.weekday = 6 then followingMonday d else d) := by
  have hlt := weekday_lt_seven d
  by_cases h5 : d.weekday = 5
  · simp [h5, followingMonday_sat h h5]
  · by_cases h6 : d.weekday = 6
    · simp [h6, followingMonday_sun h h6]
    · have hn : ¬5 ≤ d.weekday := by omega
      simp [hn, h5, h6]

theorem upcomingGo_spec (today : PyDate) (l : List (String × Record))
    (H : ∀ nr ∈ l, birthdayOk today nr.2) :
    upcomingGo today (today.addDays 7) l = .ok (l.filterMap (upcomingSpecItem today)) := by
  induction l with
  | nil => rfl
  | cons nr rest ih =>
    have hH := H nr (List.mem_cons_self nr rest)
    have ihh := ih (fun x hx => H x (List.mem_cons_of_mem nr hx))
    obtain ⟨k, record⟩ := nr
    rw [List.filterMap_cons]
    unfold birthdayOk at hH
    cases hbd : record.birthday with
    | none =>
      rw [hbd] at hH
      simp only [upcomingGo, upcomingSpecItem, hbd]
      exact ihh
    | some bd =>
      rw [hbd] at hH
      obtain ⟨hv1, hv2⟩ := hH
      have hr1 : replaceYear bd today.year = .ok ⟨today.year, bd.month, bd.day⟩ := by
        unfold replaceYear
        rw [if_pos hv1]
      simp only [upcomingGo, upcomingSpecItem, hbd, hr1]
      by_cases hlt : (PyDate.mk today.year bd.month bd.day).lt today
      · have hvnext := hv2 hlt
        have hr2 : replaceYear (PyDate.mk today.year bd.month bd.day) (today.year + 1)
            = .ok ⟨today.year + 1, bd.month, bd.day⟩ := by
          unfold replaceYear
          exact if_pos hvnext
        rw [if_pos hlt, hr2]
        dsimp only
        rw [ihh]
        dsimp only [specOccurrence]
        rw [if_pos hlt]
        by_cases hwin : today.le ⟨today.year + 1, bd.month, bd.day⟩
            ∧ PyDate.le ⟨today.year + 1, bd.month, bd.day⟩ (today.addDays 7)
        · rw [if_pos hwin, if_pos hwin, weekend_shift_eq hvnext]
        · rw [if_neg hwin, if_neg hwin]
      · rw [if_neg hlt]
        dsimp only
        rw [ihh]
        dsimp only [specOccurrence]
        rw [if_neg hlt]
        by_cases hwin : today.le ⟨today.year, bd.month, bd.day⟩
            ∧ PyDate.le ⟨today.year, bd.month, bd.day⟩ (today.addDays 7)
        · rw [if_pos hwin, if_pos hwin, weekend_shift_eq hv1]
        · rw [if_neg hwin, if_neg hwin]

/-- C1 (amended): for every address book in which each stored birthday's
month/day exists as a date in the year it is mapped to — today's year, or the
next year when the this-year occurrence is already past (only a February 29
birthday mapped into a non-leap year fails this) — and for every today,
`get_upcoming_birthdays` returns exactly the records whose rolled-forward
occurrence falls in the inclusive window from today through today plus seven
days (a birthday today is included, one in eight days is excluded), with a
Saturday or Sunday occurrence reported as the following Monday, formatted
DD.MM.YYYY. -/
theorem get_upcoming_birthdays_spec (book : AddressBook) (today : PyDate)
    (H : ∀ nr ∈ book.data, birthdayOk today nr.2) :
    book.get_upcoming_birthdays today = .ok (upcomingSpec book today) :=
  upcomingGo_spec today book.data H

/-- Witness for C1 at a concrete book and today (Monday 2025-09-15): a
birthday due today is reported, Saturday and Sunday birthdays inside the
window are both reported as Monday 22.09.2025, a birthday eight days out and
one already past are omitted. -/
theorem get_upcoming_birthdays_spec_witness :
    AddressBook.get_upcoming_birthdays
        ⟨[("ann", ⟨"ann", [], some ⟨1990, 9, 15⟩⟩),
          ("sat", ⟨"sat", [], some ⟨1990, 9, 20⟩⟩),
          ("sun", ⟨"sun", [], some ⟨1990, 9, 21⟩⟩),
          ("late", ⟨"late", [], some ⟨1990, 9, 23⟩⟩),
          ("past", ⟨"past", [], some ⟨1990, 9, 14⟩⟩)]⟩ ⟨2025, 9, 15⟩
      = .ok [("ann", "15.09.2025"), ("sat", "22.09.2025"), ("sun", "22.09.2025")] :=
  (get_upcoming_birthdays_spec
    ⟨[("ann", ⟨"ann", [], some ⟨1990, 9, 15⟩⟩),
      ("sat", ⟨"sat", [], some ⟨1990, 9, 20⟩⟩),
      ("sun", ⟨"sun", [], some ⟨1990, 9, 21⟩⟩),
      ("late", ⟨"late", [], some ⟨1990, 9, 23⟩⟩),
      ("past", ⟨"past", [], some ⟨1990, 9, 14⟩⟩)]⟩ ⟨2025, 9, 15⟩ (by decide)).trans
    (by decide)

/-- Counterexample for C1 as stated: with a (reachable) February 29 birthday
on the book and today in a non-leap year, the query raises ValueError instead
of returning the window selection, so the unconditional claim fails. -/
theorem get_upcoming_birthdays_feb29_counterexample :
    AddressBook.get_upcoming_birthdays
        ⟨[("ann", ⟨"ann", [], some ⟨2016, 2, 29⟩⟩)]⟩ ⟨2026, 2, 1⟩
      = .error "day is out of range for month" ∧
    AddressBook.get_upcoming_birthdays
        ⟨[("ann", ⟨"ann", [], some ⟨2016, 2, 29⟩⟩)]⟩ ⟨2026, 2, 1⟩
      ≠ .ok (upcomingSpec ⟨[("ann", ⟨"ann", [], some ⟨2016, 2, 29⟩⟩)]⟩ ⟨2026, 2, 1⟩) := by
  decide

/-- C4: a record with a February 29 birthday is reachable (the birthday
parser accepts 29.02.2020), and on such a book `get_upcoming_birthdays`
raises ValueError (the year-replacement is undefined in a non-leap year)
instead of returning a list. -/
theorem get_upcoming_birthdays_feb29_raises :
    Birthday.parse "29.02.2020" = .ok ⟨2020, 2, 29⟩ ∧
    AddressBook.get_upcoming_birthdays
        ⟨[("bob", ⟨"bob", [], some ⟨2020, 2, 29⟩⟩)]⟩ ⟨2025, 6, 1⟩
      = .error "day is out of range for month" := by
  decide

/-- C2: the REPL step never crashes on a line that contains at least one
token, but the claim fails on empty and whitespace-only lines: the unpacking
inside `parse_input` raises an uncaught ValueError there, crashing the
process instead of printing a message and re-prompting. -/
theorem repl_blank_line_crash :
    mainStep ⟨2025, 1, 1⟩ ⟨[]⟩ ""
      = .error "not enough values to unpack (expected at least 1, got 0)" ∧
    mainStep ⟨2025, 1, 1⟩ ⟨[]⟩ "   "
      = .error "not enough values to unpack (expected at least 1, got 0)" ∧
    mainStep ⟨2025, 1, 1⟩ ⟨[]⟩ "frobnicate stuff"
      = .ok (.msg "Invalid command." ⟨[]⟩) ∧
    mainStep ⟨2025, 1, 1⟩ ⟨[]⟩ "add"
      = .ok (.msg "Error: not enough values to unpack (expected at least 2, got 0)" ⟨[]⟩) := by
  refine ⟨rfl, rfl, rfl, rfl⟩

/-- C3: on a name absent from the book, the add-birthday and show-birthday
handlers do not return the lookup-miss message "Contact not found"; the dead
`isinstance(record, str)` guard lets the None record reach attribute access,
so both return the generic unexpected-error message instead. -/
theorem birthday_handlers_miss_message :
    add_birthday ["alice", "01.01.2000"] ⟨[]⟩
      = (⟨[]⟩, "Unexpected error: " ++ apos ++ "NoneType" ++ apos
          ++ " object has no attribute " ++ apos ++ "add_birthday" ++ apos) ∧
    (add_birthday ["alice", "01.01.2000"] (⟨[]⟩ : AddressBook)).2 ≠ "Contact not found" ∧
    (add_birthday ["alice", "01.01.2000"] (⟨[]⟩ : AddressBook)).2 ≠ "Contact not found." ∧
    show_birthday ["alice"] ⟨[]⟩
      = "Unexpected error: " ++ apos ++ "NoneType" ++ apos
          ++ " object has no attribute " ++ apos ++ "birthday" ++ apos ∧
    show_birthday ["alice"] ⟨[]⟩ ≠ "Contact not found" ∧
    show_birthday ["alice"] ⟨[]⟩ ≠ "Contact not found." := by
  decide
